import Mathlib

/-!
Verification of the game state synchronization engine: the data model
(`GameState`, `StateUpdate`, `UpdateType`, `InventoryItem`), the merge
algorithm (`GameState.apply_update`) and the engine surface
(`StateManager.process_update`, `StateManager.remove_listener`), embedded
from `src/game_state_agent/models.py` and
`src/game_state_agent/state_manager.py`.

Conventions of the embedding:
* Python's in-place mutation of the pydantic `GameState` becomes explicit
  state passing: `apply_update` returns the new state together with the
  `changed` flag.
* Python truthiness of the optional `new_location` string (`None` and the
  empty string are falsy) is spelled out in the `match`.
* A listener is modelled by an identity (`id`, Python compares callbacks
  by object identity) and its behaviour when invoked (`throws`): invoking
  it is a fallible call returning `Except`.  The engine's `try/except`
  around each call is the `match` on that result inside `notifyAll`,
  which records the raised message in a log instead of propagating it.
* `datetime.now()` becomes an explicit `now : Nat` argument; fallible
  operations (`list.remove`, which raises `ValueError`, and the engine
  entry point) return `Except String _`.
-/

/-- `UpdateType` enumeration from `models.py`: kind of update detected. -/
inductive UpdateType where
  | noop
  | location
  | inventory
  | both
deriving DecidableEq, Repr

/-- `InventoryItem` from `models.py`: an item in the player's inventory. -/
structure InventoryItem where
  name : String
  quantity : Int
deriving DecidableEq, Repr

/-- `StateUpdate` from `models.py`: structured output of the analyzer.
`new_location` and `inventory_items` are optional (`None` when absent). -/
structure StateUpdate where
  update_type : UpdateType
  new_location : Option String
  inventory_items : Option (List InventoryItem)
  reasoning : String
deriving DecidableEq, Repr

/-- `GameState` from `models.py`: current state of the game being tracked. -/
structure GameState where
  player_location : String
  inventory : List InventoryItem
deriving DecidableEq, Repr

/-- Default `GameState` (`player_location = "Unknown"`, empty inventory). -/
def GameState.default : GameState :=
  { player_location := "Unknown", inventory := [] }

/-- `GameState.apply_update` from `models.py` lines 55-72.  Python mutates
`self` and returns the `changed` bool; here the mutated state is returned
alongside.  The guard `update.new_location and update.new_location !=
self.player_location` uses Python truthiness: `None` and `""` are falsy. -/
def GameState.apply_update (st : GameState) (update : StateUpdate) :
    GameState × Bool :=
  if update.update_type = UpdateType.noop then (st, false)
  else
    let r1 : GameState × Bool :=
      if update.update_type = UpdateType.location ∨
          update.update_type = UpdateType.both then
        match update.new_location with
        | some loc =>
            if loc ≠ "" ∧ loc ≠ st.player_location then
              ({ st with player_location := loc }, true)
            else (st, false)
        | none => (st, false)
      else (st, false)
    let r2 : GameState × Bool :=
      if update.update_type = UpdateType.inventory ∨
          update.update_type = UpdateType.both then
        match update.inventory_items with
        | some items => ({ r1.1 with inventory := items }, true)
        | none => (r1.1, r1.2)
      else (r1.1, r1.2)
    r2

/-- A registered listener: compared by identity (`id`); `throws` records
whether invoking it raises an exception. -/
structure Listener where
  id : Nat
  throws : Bool
deriving DecidableEq, Repr

/-- Invoking a listener: fallible (a Python callback may raise). -/
def callListener (l : Listener) (_st : GameState) (_u : StateUpdate) :
    Except String Unit :=
  if l.throws then Except.error ("Listener error: " ++ toString l.id)
  else Except.ok ()

/-- One invocation of a listener, as observed: which listener was called
and with which `(state, update)` arguments. -/
structure InvocationEvent where
  listener : Nat
  st : GameState
  upd : StateUpdate
deriving DecidableEq, Repr

/-- The listener dispatch loop of `process_update` (`state_manager.py`
lines 97-101): every listener is called in order; each call is wrapped in
`try/except`, a raised exception being logged (collected in the second
component) and never propagated. -/
def notifyAll (ls : List Listener) (st : GameState) (u : StateUpdate) :
    List InvocationEvent × List String :=
  match ls with
  | [] => ([], [])
  | l :: rest =>
      let logged : List String :=
        match callListener l st u with
        | Except.ok _ => []
        | Except.error e => [e]
      let tail := notifyAll rest st u
      (⟨l.id, st, u⟩ :: tail.1, logged ++ tail.2)

/-- `StateManager` from `state_manager.py`: owns the state, the ordered
listener list, and the last-change timestamp. -/
structure StateManager where
  state : GameState
  listeners : List Listener
  last_update : Option Nat
deriving DecidableEq, Repr

/-- Observable outcome of one `process_update` call: the manager after
the call, the returned `changed` flag, the listener invocations that
occurred, and the listener errors that were caught and logged. -/
structure ProcResult where
  manager : StateManager
  changed : Bool
  events : List InvocationEvent
  errors : List String
deriving DecidableEq, Repr

/-- `StateManager.process_update` from `state_manager.py` lines 69-106.
NOOP returns `false` immediately; otherwise the merge runs, and when it
reports a change the timestamp is set and every listener is notified with
the post-merge state.  The result is `Except` because Python code may
raise; every listener exception is caught inside `notifyAll`. -/
def StateManager.process_update (m : StateManager) (now : Nat)
    (update : StateUpdate) : Except String ProcResult :=
  if update.update_type = UpdateType.noop then
    Except.ok ⟨m, false, [], []⟩
  else
    let st := (m.state.apply_update update).1
    let changed := (m.state.apply_update update).2
    if changed then
      let m2 : StateManager :=
        { m with state := st, last_update := some now }
      let d := notifyAll m2.listeners st update
      Except.ok ⟨m2, changed, d.1, d.2⟩
    else
      Except.ok ⟨{ m with state := st }, changed, [], []⟩

/-- `StateManager.add_listener`: appends to the listener list. -/
def StateManager.add_listener (m : StateManager) (l : Listener) :
    StateManager :=
  { m with listeners := m.listeners ++ [l] }

/-- Python `list.remove(x)`: removes the first occurrence of `x`, raising
`ValueError` when `x` is not in the list. -/
def listRemove {α : Type} [DecidableEq α] : List α → α → Except String (List α)
  | [], _ => Except.error "ValueError: list.remove(x): x not in list"
  | y :: ys, x =>
      if y = x then Except.ok ys
      else
        match listRemove ys x with
        | Except.ok rest => Except.ok (y :: rest)
        | Except.error e => Except.error e

/-- `StateManager.remove_listener` from `state_manager.py` lines 65-67:
delegates to `list.remove`. -/
def StateManager.remove_listener (m : StateManager) (l : Listener) :
    Except String StateManager :=
  match listRemove m.listeners l with
  | Except.ok ls => Except.ok { m with listeners := ls }
  | Except.error e => Except.error e

/-- Spec §4.1 step 2, as a predicate: the location sub-rule fires when
`location` is present, non-empty and differs from the current location. -/
def locRuleFires (st : GameState) (u : StateUpdate) : Bool :=
  match u.new_location with
  | some l => l ≠ "" && l ≠ st.player_location
  | none => false

/-- Spec §4.1 step 3, as a predicate: the inventory sub-rule fires when
`items` is present (an explicit empty sequence included). -/
def invRuleFires (u : StateUpdate) : Bool :=
  u.inventory_items.isSome

/-! ### Helper lemmas about the merge algorithm -/

/-- NOOP updates leave the state alone and report unchanged. -/
theorem apply_update_noop (st : GameState) (u : StateUpdate)
    (hk : u.update_type = UpdateType.noop) :
    st.apply_update u = (st, false) := by
  simp [GameState.apply_update, hk]

/-- An inventory-kind update with items present replaces the inventory and
reports changed. -/
theorem apply_update_inventory (st : GameState) (u : StateUpdate)
    (items : List InventoryItem)
    (hk : u.update_type = UpdateType.inventory)
    (hi : u.inventory_items = some items) :
    st.apply_update u = ({ st with inventory := items }, true) := by
  simp [GameState.apply_update, hk, hi]

/-- A location-kind update with a non-empty, differing location moves the
location and reports changed. -/
theorem apply_update_location_changes (st : GameState) (u : StateUpdate)
    (loc : String)
    (hk : u.update_type = UpdateType.location)
    (hl : u.new_location = some loc)
    (hne : loc ≠ "") (hd : loc ≠ st.player_location) :
    st.apply_update u = ({ st with player_location := loc }, true) := by
  simp [GameState.apply_update, hk, hl, hne, hd]

/-- A location-kind update whose location equals the current one is a
no-op reporting unchanged. -/
theorem apply_update_location_same (st : GameState) (u : StateUpdate)
    (hk : u.update_type = UpdateType.location)
    (hl : u.new_location = some st.player_location) :
    st.apply_update u = (st, false) := by
  simp [GameState.apply_update, hk, hl]

/-- When the merge reports unchanged, the state really is untouched. -/
theorem apply_update_unchanged_state (st : GameState) (u : StateUpdate)
    (hc : (st.apply_update u).2 = false) :
    (st.apply_update u).1 = st := by
  obtain ⟨ut, nl, ii, rs⟩ := u
  cases ut <;> cases nl <;> cases ii <;>
    simp_all [GameState.apply_update] <;>
    split_ifs at hc ⊢ <;> simp_all

/-- The dispatch loop invokes every listener, in order, with the given
state and update, whether or not earlier listeners threw. -/
theorem notifyAll_events (ls : List Listener) (st : GameState)
    (u : StateUpdate) :
    (notifyAll ls st u).1 = ls.map (fun l => ⟨l.id, st, u⟩) := by
  induction ls with
  | nil => rfl
  | cons l rest ih => simp [notifyAll, ih]

/-- `process_update` on a changing, non-noop update: timestamp set, state
merged, all listeners notified with the post-merge state. -/
theorem process_update_changed (m : StateManager) (now : Nat)
    (u : StateUpdate)
    (hn : u.update_type ≠ UpdateType.noop)
    (hc : (m.state.apply_update u).2 = true) :
    m.process_update now u = Except.ok
      ⟨{ m with state := (m.state.apply_update u).1, last_update := some now },
        true,
        m.listeners.map (fun l => ⟨l.id, (m.state.apply_update u).1, u⟩),
        (notifyAll m.listeners (m.state.apply_update u).1 u).2⟩ := by
  simp [StateManager.process_update, hn, hc, notifyAll_events]

/-- `process_update` on a non-changing, non-noop update: nothing moves,
no listener runs. -/
theorem process_update_unchanged (m : StateManager) (now : Nat)
    (u : StateUpdate)
    (hn : u.update_type ≠ UpdateType.noop)
    (hc : (m.state.apply_update u).2 = false) :
    m.process_update now u = Except.ok ⟨m, false, [], []⟩ := by
  have hst := apply_update_unchanged_state m.state u hc
  simp [StateManager.process_update, hn, hc, hst]

/-! ### Claim theorems -/

/-- C1: for every update with kind INVENTORY whose items field is present
(including an explicitly empty sequence), `process_update` returns `true`
unconditionally and the state's inventory becomes exactly the update's
items sequence — wholesale replacement, no merge, no content-equality
check — while the location is untouched. -/
theorem inventory_update_replaces_wholesale (m : StateManager) (now : Nat)
    (u : StateUpdate) (items : List InventoryItem)
    (hk : u.update_type = UpdateType.inventory)
    (hi : u.inventory_items = some items) :
    ∃ r, m.process_update now u = Except.ok r ∧
      r.changed = true ∧
      r.manager.state.inventory = items ∧
      r.manager.state.player_location = m.state.player_location := by
  have ha := apply_update_inventory m.state u items hk hi
  have hn : u.update_type ≠ UpdateType.noop := by simp [hk]
  refine ⟨_, process_update_changed m now u hn (by rw [ha]), rfl, ?_, ?_⟩ <;>
    simp [ha]

/-- C1 witness: replacing a one-item inventory with an identical list
still reports changed. -/
theorem inventory_update_replaces_wholesale_witness :
    ∃ r, StateManager.process_update
        ⟨⟨"Limgrave", [⟨"Rune Arc", 1⟩]⟩, [], none⟩ 0
        ⟨UpdateType.inventory, none, some [⟨"Rune Arc", 1⟩], "seen"⟩
        = Except.ok r ∧
      r.changed = true ∧
      r.manager.state.inventory = [⟨"Rune Arc", 1⟩] ∧
      r.manager.state.player_location = "Limgrave" :=
  inventory_update_replaces_wholesale _ 0 _ _ rfl rfl

/-- C4: for every update with kind NOOP, `process_update` returns `false`,
the manager (state included) is left exactly as it was, and no listener
is invoked — whatever the `location` and `items` fields hold, so the NOOP
check precedes the location and inventory logic. -/
theorem noop_update_is_inert (m : StateManager) (now : Nat)
    (u : StateUpdate) (hk : u.update_type = UpdateType.noop) :
    m.process_update now u = Except.ok ⟨m, false, [], []⟩ := by
  simp [StateManager.process_update, hk]

/-- C4 witness: a NOOP update carrying a fresh location and items is still
inert. -/
theorem noop_update_is_inert_witness :
    StateManager.process_update
        ⟨⟨"Unknown", []⟩, [⟨0, false⟩], none⟩ 7
        ⟨UpdateType.noop, some "Limgrave", some [⟨"Rune Arc", 1⟩], "idle"⟩
      = Except.ok ⟨⟨⟨"Unknown", []⟩, [⟨0, false⟩], none⟩, false, [], []⟩ :=
  noop_update_is_inert _ 7 _ rfl

/-- C6: a LOCATION update whose location equals the current one exactly
reports unchanged: `process_update` returns `false`, the manager is left
exactly as it was, and no listener is invoked. -/
theorem location_update_same_is_unchanged (m : StateManager) (now : Nat)
    (u : StateUpdate)
    (hk : u.update_type = UpdateType.location)
    (hl : u.new_location = some m.state.player_location) :
    m.process_update now u = Except.ok ⟨m, false, [], []⟩ := by
  have hn : u.update_type ≠ UpdateType.noop := by simp [hk]
  exact process_update_unchanged m now u hn
    (by rw [apply_update_location_same m.state u hk hl])

/-- C6 witness: re-reporting the current area changes nothing. -/
theorem location_update_same_is_unchanged_witness :
    StateManager.process_update
        ⟨⟨"Limgrave", [⟨"Rune Arc", 1⟩]⟩, [⟨0, false⟩], some 3⟩ 9
        ⟨UpdateType.location, some "Limgrave", none, "same area"⟩
      = Except.ok
        ⟨⟨⟨"Limgrave", [⟨"Rune Arc", 1⟩]⟩, [⟨0, false⟩], some 3⟩,
          false, [], []⟩ :=
  location_update_same_is_unchanged _ 9 _ rfl rfl

/-- C5: for every LOCATION update whose location is non-empty and differs
from the current one, `process_update` returns `true`, the state's
location becomes the update's value, and exactly one listener invocation
round occurs: each registered listener is invoked exactly once, in
registration order, with the (post-merge) current state and the update. -/
theorem location_update_changes_and_notifies (m : StateManager)
    (now : Nat) (u : StateUpdate) (loc : String)
    (hk : u.update_type = UpdateType.location)
    (hl : u.new_location = some loc)
    (hne : loc ≠ "") (hd : loc ≠ m.state.player_location) :
    ∃ r, m.process_update now u = Except.ok r ∧
      r.changed = true ∧
      r.manager.state = { m.state with player_location := loc } ∧
      r.events = m.listeners.map
        (fun l => ⟨l.id, { m.state with player_location := loc }, u⟩) := by
  have ha := apply_update_location_changes m.state u loc hk hl hne hd
  have hn : u.update_type ≠ UpdateType.noop := by simp [hk]
  refine ⟨_, process_update_changed m now u hn (by rw [ha]), rfl, ?_, ?_⟩ <;>
    simp [ha]

/-- C5 witness: two listeners are each notified once, in order, on a real
location change. -/
theorem location_update_changes_and_notifies_witness :
    ∃ r, StateManager.process_update
        ⟨⟨"Unknown", []⟩, [⟨0, false⟩, ⟨1, false⟩], none⟩ 4
        ⟨UpdateType.location, some "Limgrave", none, "area shown"⟩
        = Except.ok r ∧
      r.changed = true ∧
      r.manager.state = ⟨"Limgrave", []⟩ ∧
      r.events =
        [⟨0, ⟨"Limgrave", []⟩,
            ⟨UpdateType.location, some "Limgrave", none, "area shown"⟩⟩,
         ⟨1, ⟨"Limgrave", []⟩,
            ⟨UpdateType.location, some "Limgrave", none, "area shown"⟩⟩] :=
  location_update_changes_and_notifies _ 4 _ "Limgrave" rfl rfl
    (by decide) (by decide)

/-- C8: for every well-formed update and every listener list (throwing
listeners included), `process_update` never raises: it always returns
`Except.ok`, and the boolean it reports is exactly the `changed` flag
computed by the merge algorithm, regardless of listener outcomes. -/
theorem process_update_never_raises (m : StateManager) (now : Nat)
    (u : StateUpdate) :
    ∃ r, m.process_update now u = Except.ok r ∧
      r.changed = (m.state.apply_update u).2 := by
  by_cases hk : u.update_type = UpdateType.noop
  · exact ⟨_, noop_update_is_inert m now u hk,
      by rw [apply_update_noop m.state u hk]⟩
  · cases hc : (m.state.apply_update u).2 with
    | true => exact ⟨_, process_update_changed m now u hk hc, rfl⟩
    | false => exact ⟨_, process_update_unchanged m now u hk hc, rfl⟩

/-- C9: for every LOCATION or BOTH update whose location field is absent
or the empty string, the location sub-rule does not fire: the merged
state keeps its location; and a pure LOCATION update of this form makes
`process_update` return `false` with the whole manager unchanged. -/
theorem absent_or_empty_location_never_fires (m : StateManager)
    (now : Nat) (u : StateUpdate)
    (hl : u.new_location = none ∨ u.new_location = some "") :
    ((u.update_type = UpdateType.location ∨
        u.update_type = UpdateType.both) →
      (m.state.apply_update u).1.player_location =
        m.state.player_location) ∧
    (u.update_type = UpdateType.location →
      m.process_update now u = Except.ok ⟨m, false, [], []⟩) := by
  constructor
  · intro hk
    rcases hl with hl | hl <;> rcases hk with hk | hk <;>
      simp [GameState.apply_update, hk, hl] <;>
      cases hi : u.inventory_items <;> simp [hi]
  · intro hk
    have hn : u.update_type ≠ UpdateType.noop := by simp [hk]
    have ha : m.state.apply_update u = (m.state, false) := by
      rcases hl with hl | hl <;> simp [GameState.apply_update, hk, hl]
    exact process_update_unchanged m now u hn (by rw [ha])

/-- C9 witness: an empty-string location on a LOCATION update changes
nothing. -/
theorem absent_or_empty_location_never_fires_witness :
    ((UpdateType.location = UpdateType.location ∨
        UpdateType.location = UpdateType.both) →
      ((GameState.apply_update ⟨"Limgrave", []⟩
          ⟨UpdateType.location, some "", none, "blank"⟩).1.player_location
        = "Limgrave")) ∧
    (UpdateType.location = UpdateType.location →
      StateManager.process_update ⟨⟨"Limgrave", []⟩, [⟨0, false⟩], none⟩ 2
          ⟨UpdateType.location, some "", none, "blank"⟩
        = Except.ok
          ⟨⟨⟨"Limgrave", []⟩, [⟨0, false⟩], none⟩, false, [], []⟩) :=
  absent_or_empty_location_never_fires
    ⟨⟨"Limgrave", []⟩, [⟨0, false⟩], none⟩ 2
    ⟨UpdateType.location, some "", none, "blank"⟩ (Or.inr rfl)

/-- Any inventory-bearing update (kind INVENTORY or BOTH, items present)
reports changed and installs exactly the update's items. -/
theorem apply_update_items_present (st : GameState) (u : StateUpdate)
    (items : List InventoryItem)
    (hk : u.update_type = UpdateType.inventory ∨
      u.update_type = UpdateType.both)
    (hi : u.inventory_items = some items) :
    (st.apply_update u).2 = true ∧
    (st.apply_update u).1.inventory = items := by
  rcases hk with hk | hk <;> simp [GameState.apply_update, hk, hi]

/-- `process_update` always returns `ok`, reporting the merge's flag and
holding the merge's state. -/
theorem process_update_ok (m : StateManager) (now : Nat) (u : StateUpdate) :
    ∃ r, m.process_update now u = Except.ok r ∧
      r.changed = (m.state.apply_update u).2 ∧
      r.manager.state = (m.state.apply_update u).1 := by
  by_cases hk : u.update_type = UpdateType.noop
  · refine ⟨_, noop_update_is_inert m now u hk, ?_, ?_⟩ <;>
      simp [apply_update_noop m.state u hk]
  · cases hc : (m.state.apply_update u).2 with
    | true => exact ⟨_, process_update_changed m now u hk hc, rfl, rfl⟩
    | false =>
        exact ⟨_, process_update_unchanged m now u hk hc, rfl,
          (apply_update_unchanged_state m.state u hc).symm⟩

/-- C2: applying the same changing update twice is asymmetric between
kinds.  A location-only update (non-empty location differing from the
start state) yields `changed = true` then `changed = false` on the second
call, while an inventory-bearing update (items present) yields
`changed = true` on every call, whatever the current state. -/
theorem repeated_update_asymmetry :
    (∀ (m : StateManager) (n1 n2 : Nat) (u : StateUpdate) (loc : String),
      u.update_type = UpdateType.location → u.new_location = some loc →
      loc ≠ "" → loc ≠ m.state.player_location →
      ∃ r1 r2, m.process_update n1 u = Except.ok r1 ∧
        r1.changed = true ∧
        r1.manager.process_update n2 u = Except.ok r2 ∧
        r2.changed = false) ∧
    (∀ (m : StateManager) (n : Nat) (u : StateUpdate)
        (items : List InventoryItem),
      (u.update_type = UpdateType.inventory ∨
        u.update_type = UpdateType.both) →
      u.inventory_items = some items →
      ∃ r, m.process_update n u = Except.ok r ∧ r.changed = true) := by
  constructor
  · intro m n1 n2 u loc hk hl hne hd
    have ha := apply_update_location_changes m.state u loc hk hl hne hd
    obtain ⟨r1, e1, c1, s1⟩ := process_update_ok m n1 u
    obtain ⟨r2, e2, c2, s2⟩ := process_update_ok r1.manager n2 u
    refine ⟨r1, r2, e1, ?_, e2, ?_⟩
    · rw [c1, ha]
    · rw [c2]
      have hsame : u.new_location =
          some r1.manager.state.player_location := by
        rw [s1, ha]
        exact hl
      rw [apply_update_location_same r1.manager.state u hk hsame]
  · intro m n u items hk hi
    have hn : u.update_type ≠ UpdateType.noop := by
      rcases hk with hk | hk <;> simp [hk]
    exact ⟨_, process_update_changed m n u hn
      (apply_update_items_present m.state u items hk hi).1, rfl⟩

/-- C2 witness: a fresh location reports changed once then unchanged; an
identical inventory snapshot reports changed again. -/
theorem repeated_update_asymmetry_witness :
    (∃ r1 r2, StateManager.process_update ⟨⟨"Unknown", []⟩, [], none⟩ 0
        ⟨UpdateType.location, some "Limgrave", none, "a"⟩ = Except.ok r1 ∧
      r1.changed = true ∧
      r1.manager.process_update 1
        ⟨UpdateType.location, some "Limgrave", none, "a"⟩ = Except.ok r2 ∧
      r2.changed = false) ∧
    (∃ r, StateManager.process_update
        ⟨⟨"Limgrave", [⟨"Rune Arc", 1⟩]⟩, [], none⟩ 2
        ⟨UpdateType.inventory, none, some [⟨"Rune Arc", 1⟩], "b"⟩
        = Except.ok r ∧ r.changed = true) :=
  ⟨repeated_update_asymmetry.1 _ 0 1 _ "Limgrave" rfl rfl
      (by decide) (by decide),
   repeated_update_asymmetry.2 _ 2 _ [⟨"Rune Arc", 1⟩] (Or.inl rfl) rfl⟩

/-- C3: listener failures are isolated per listener.  With listeners
`[l1, l2]` registered in that order and `l1` throwing, a changing update
still records an invocation of `l2` exactly once, `process_update` still
returns `true`, and the canonical state still reflects the applied
merge. -/
theorem failing_listener_is_isolated (m : StateManager) (now : Nat)
    (u : StateUpdate) (l1 l2 : Listener)
    (hl : m.listeners = [l1, l2]) (_h1 : l1.throws = true)
    (hne : l1.id ≠ l2.id)
    (hc : (m.state.apply_update u).2 = true) :
    ∃ r, m.process_update now u = Except.ok r ∧
      r.changed = true ∧
      r.manager.state = (m.state.apply_update u).1 ∧
      r.events = [⟨l1.id, (m.state.apply_update u).1, u⟩,
                  ⟨l2.id, (m.state.apply_update u).1, u⟩] ∧
      (r.events.filter (fun e => e.listener == l2.id)).length = 1 := by
  have hn : u.update_type ≠ UpdateType.noop := by
    intro hk
    rw [apply_update_noop m.state u hk] at hc
    exact Bool.false_ne_true hc
  refine ⟨_, process_update_changed m now u hn hc, rfl, rfl, ?_, ?_⟩
  · simp [hl]
  · simp [hl, hne]

/-- C3 witness: listener 0 throws, listener 1 is still notified exactly
once, and the location change sticks. -/
theorem failing_listener_is_isolated_witness :
    ∃ r, StateManager.process_update
        ⟨⟨"Unknown", []⟩, [⟨0, true⟩, ⟨1, false⟩], none⟩ 5
        ⟨UpdateType.location, some "Limgrave", none, "move"⟩
        = Except.ok r ∧
      r.changed = true ∧
      r.manager.state = (GameState.apply_update ⟨"Unknown", []⟩
        ⟨UpdateType.location, some "Limgrave", none, "move"⟩).1 ∧
      r.events = [⟨0, (GameState.apply_update ⟨"Unknown", []⟩
          ⟨UpdateType.location, some "Limgrave", none, "move"⟩).1,
          ⟨UpdateType.location, some "Limgrave", none, "move"⟩⟩,
        ⟨1, (GameState.apply_update ⟨"Unknown", []⟩
          ⟨UpdateType.location, some "Limgrave", none, "move"⟩).1,
          ⟨UpdateType.location, some "Limgrave", none, "move"⟩⟩] ∧
      (r.events.filter (fun e => e.listener == 1)).length = 1 :=
  failing_listener_is_isolated _ 5 _ ⟨0, true⟩ ⟨1, false⟩ rfl rfl
    (by decide) (by decide)

/-- A BOTH-kind update applies each sub-rule exactly when its own guard
fires, and reports their disjunction. -/
theorem apply_update_both (st : GameState) (u : StateUpdate)
    (hk : u.update_type = UpdateType.both) :
    (st.apply_update u).2 = (locRuleFires st u || invRuleFires u) ∧
    (st.apply_update u).1.player_location =
      (if locRuleFires st u then u.new_location.getD st.player_location
       else st.player_location) ∧
    (st.apply_update u).1.inventory =
      u.inventory_items.getD st.inventory := by
  cases hl : u.new_location <;> cases hi : u.inventory_items <;>
    simp [GameState.apply_update, locRuleFires, invRuleFires, hk, hl, hi] <;>
    split_ifs <;> (try simp_all) <;> (try tauto)

/-- C7: for a BOTH update the location and inventory sub-rules apply
independently per their own conditions, and `process_update` reports
changed exactly when at least one sub-rule fired. -/
theorem both_update_subrules_independent (m : StateManager) (now : Nat)
    (u : StateUpdate) (hk : u.update_type = UpdateType.both) :
    ∃ r, m.process_update now u = Except.ok r ∧
      r.changed = (locRuleFires m.state u || invRuleFires u) ∧
      r.manager.state.player_location =
        (if locRuleFires m.state u then
          u.new_location.getD m.state.player_location
        else m.state.player_location) ∧
      r.manager.state.inventory =
        u.inventory_items.getD m.state.inventory := by
  obtain ⟨r, hr, hch, hst⟩ := process_update_ok m now u
  have hb := apply_update_both m.state u hk
  exact ⟨r, hr, by rw [hch, hb.1], by rw [hst, hb.2.1],
    by rw [hst, hb.2.2]⟩

/-- C7 witness: a BOTH update with the same location but different items
present fires only the inventory sub-rule and reports changed. -/
theorem both_update_subrules_independent_witness :
    ∃ r, StateManager.process_update ⟨⟨"Limgrave", []⟩, [], none⟩ 3
        ⟨UpdateType.both, some "Limgrave", some [⟨"Rune Arc", 1⟩], "seen"⟩
        = Except.ok r ∧
      r.changed = (locRuleFires ⟨"Limgrave", []⟩
          ⟨UpdateType.both, some "Limgrave", some [⟨"Rune Arc", 1⟩], "seen"⟩
        || invRuleFires
          ⟨UpdateType.both, some "Limgrave", some [⟨"Rune Arc", 1⟩], "seen"⟩) ∧
      r.manager.state.player_location =
        (if locRuleFires ⟨"Limgrave", []⟩
            ⟨UpdateType.both, some "Limgrave", some [⟨"Rune Arc", 1⟩], "seen"⟩
         then (Option.getD (some "Limgrave") "Limgrave")
         else "Limgrave") ∧
      r.manager.state.inventory =
        Option.getD (some [⟨"Rune Arc", 1⟩]) [] :=
  both_update_subrules_independent _ 3 _ rfl

/-- `list.remove` on a list not containing the element raises
`ValueError`. -/
theorem listRemove_not_mem {α : Type} [DecidableEq α] (xs : List α)
    (x : α) (h : x ∉ xs) :
    listRemove xs x =
      Except.error "ValueError: list.remove(x): x not in list" := by
  induction xs with
  | nil => rfl
  | cons y ys ih =>
      rw [List.mem_cons] at h
      push_neg at h
      have hyx : ¬ (y = x) := fun hyx => h.1 hyx.symm
      simp [listRemove, hyx, ih h.2]

/-- `list.remove` deletes exactly the first occurrence, keeping the rest
in order. -/
theorem listRemove_first {α : Type} [DecidableEq α] (pre post : List α)
    (x : α) (h : x ∉ pre) :
    listRemove (pre ++ x :: post) x = Except.ok (pre ++ post) := by
  induction pre with
  | nil => simp [listRemove]
  | cons y ys ih =>
      rw [List.mem_cons] at h
      push_neg at h
      have hyx : ¬ (y = x) := fun hyx => h.1 hyx.symm
      simp [listRemove, hyx, ih h.2]

/-- C10: removing a callback that is not registered raises an error (no
silent no-op); removing a registered callback deletes exactly its first
registration, leaving the relative order of the remaining listeners
unchanged. -/
theorem remove_listener_raises_or_removes_first (m : StateManager)
    (l : Listener) :
    (l ∉ m.listeners →
      m.remove_listener l =
        Except.error "ValueError: list.remove(x): x not in list") ∧
    (∀ pre post, m.listeners = pre ++ l :: post → l ∉ pre →
      m.remove_listener l =
        Except.ok { m with listeners := pre ++ post }) := by
  constructor
  · intro h
    simp [StateManager.remove_listener, listRemove_not_mem m.listeners l h]
  · intro pre post hsplit hpre
    simp [StateManager.remove_listener, hsplit,
      listRemove_first pre post l hpre]

/-- C10 witness: removing an unregistered listener errors; removing a
duplicated listener deletes only its first registration and keeps the
order of the others. -/
theorem remove_listener_raises_or_removes_first_witness :
    StateManager.remove_listener ⟨⟨"Unknown", []⟩, [⟨0, false⟩], none⟩
        ⟨5, false⟩ =
      Except.error "ValueError: list.remove(x): x not in list" ∧
    StateManager.remove_listener
        ⟨⟨"Unknown", []⟩,
          [⟨1, false⟩, ⟨0, false⟩, ⟨2, false⟩, ⟨0, false⟩], none⟩
        ⟨0, false⟩ =
      Except.ok
        ⟨⟨"Unknown", []⟩, [⟨1, false⟩, ⟨2, false⟩, ⟨0, false⟩], none⟩ :=
  ⟨(remove_listener_raises_or_removes_first _ _).1 (by decide),
   (remove_listener_raises_or_removes_first _ _).2 [⟨1, false⟩]
     [⟨2, false⟩, ⟨0, false⟩] rfl (by decide)⟩
